import Mathlib

/-!
Verification of the repr-vscode extension (a VS Code UI layer around the
external `repr` CLI) against its natural-language specification.

The TypeScript sources are shallowly embedded:
* JavaScript runtime values that flow through `JSON.parse` and the webview
  are modelled by the inductive `JsValue` (including `undefined`, since the
  code relies on optional chaining and truthiness).
* Subprocess execution (`child_process.exec` via `execAsync`) is modelled by
  an explicit outcome (`SubprocOutcome`) passed to the embedded functions;
  thrown JavaScript exceptions are modelled with `Except JsError`.
* The output channel (`ReprOutputChannel`, src/outputChannel.ts) is a list of
  logged lines threaded through the functions; `appendError` prefixes
  "[ERROR] " exactly as the source does.
* Wall-clock readings (`Date.now()`, `new Date()`) are explicit parameters.
-/

/-- A JavaScript runtime value, as produced by `JSON.parse` and manipulated by
the extension. `undef` models `undefined` (needed for property reads on
objects that lack the property, and for optional chaining). -/
inductive JsValue where
  | jsUndefined
  | jsNull
  | bool (b : Bool)
  | num (n : Int)
  | str (s : String)
  | arr (elems : List JsValue)
  | obj (fields : List (String × JsValue))

/-- JavaScript truthiness: `undefined`, `null`, `false`, `0`, and `""` are
falsy; every array and object is truthy. -/
def JsValue.truthy : JsValue → Bool
  | .jsUndefined => false
  | .jsNull => false
  | .bool b => b
  | .num n => n != 0
  | .str s => s != ""
  | .arr _ => true
  | .obj _ => true

/-- Property read `v[k]` on a JavaScript value: a missing property of an
object, or a property read on a primitive, yields `undefined`.  (Reads on
`null`/`undefined` throw in JavaScript; the embedded code only performs them
behind optional chaining or truthiness guards, which we model explicitly.) -/
def JsValue.getProp : JsValue → String → JsValue
  | .obj fields, k => ((fields.lookup k).getD .jsUndefined)
  | _, _ => .jsUndefined

/-- Optional-chained length read `v?.length`: `undefined` for `null` and
`undefined` receivers; the `length` property otherwise (arrays and strings
have a numeric `length`, other primitives lack the property). -/
def JsValue.optLength : JsValue → JsValue
  | .jsUndefined => .jsUndefined
  | .jsNull => .jsUndefined
  | .arr l => .num l.length
  | .str s => .num s.data.length
  | .obj fields => ((fields.lookup "length").getD .jsUndefined)
  | .num _ => .jsUndefined
  | .bool _ => .jsUndefined

/-- A JavaScript exception value. -/
inductive JsError where
  /-- The error object with which `execAsync` rejects when the subprocess
  exits non-zero: it carries a message and the captured stdout/stderr. -/
  | execError (message stdout stderr : String)
  /-- An `Error` constructed with `new Error(message)`. -/
  | newError (message : String)
  /-- The `SyntaxError` thrown by `JSON.parse` on unparseable input. -/
  | jsonParseError
  /-- A `TypeError` (e.g. calling `.slice` on a value that lacks it). -/
  | typeError
deriving DecidableEq

/-- The number of elements `a.slice(0, k)` keeps from a length-`len`
array/string: a negative end counts from the end of the array, and the
result is clamped to `[0, len]`. -/
def sliceCount (len : Nat) (k : Int) : Nat :=
  if k < 0 then ((len : Int) + k).toNat else min k.toNat len

/-- `v.slice(0, k)`: defined on arrays and strings; any other receiver lacks
a `slice` method, so the call throws a `TypeError`. -/
def JsValue.slice (v : JsValue) (k : Int) : Except JsError JsValue :=
  match v with
  | .arr l => .ok (.arr (l.take (sliceCount l.length k)))
  | .str s => .ok (.str (String.mk (s.data.take (sliceCount s.data.length k))))
  | _ => .error .typeError

/-- A plain (non-optional) `v.length` read: throws on `null`/`undefined`,
yields `undefined` on primitives that lack the property. -/
def JsValue.lengthRead (v : JsValue) : Except JsError JsValue :=
  match v with
  | .jsUndefined => .error .typeError
  | .jsNull => .error .typeError
  | _ => .ok v.optLength

/-- String coercion of a JavaScript value, as performed by template
literals; only the string and primitive cases are exercised by the code. -/
def JsValue.coerceString : JsValue → String
  | .jsUndefined => "undefined"
  | .jsNull => "null"
  | .bool b => if b then "true" else "false"
  | .num n => toString n
  | .str s => s
  | .arr _ => ""
  | .obj _ => "[object Object]"

/-! ## Character/string helpers used by the embedding

The Lean core `String` functions `startsWith`/`splitOn`/`trim` operate on
byte positions and do not reduce inside the kernel, so the embedding uses
character-list implementations of the JavaScript string operations. -/

/-- JavaScript `s.includes(pat)`: `pat` occurs as a contiguous substring. -/
def strIncludes (s pat : String) : Bool :=
  (List.range (s.data.length + 1)).any (fun i => pat.data.isPrefixOf (s.data.drop i))

/-- JavaScript `s.startsWith(pre)`. -/
def strStartsWith (s pre : String) : Bool :=
  pre.data.isPrefixOf s.data

/-- Split a string at newline characters (JavaScript `s.split('\n')`). -/
def splitNewlines (s : String) : List String :=
  (s.data.splitOn '\n').map String.mk

/-- JavaScript `s.trim()`: strip leading and trailing whitespace. -/
def jsTrim (s : String) : String :=
  String.mk ((s.data.dropWhile Char.isWhitespace).reverse.dropWhile Char.isWhitespace).reverse

/-! ## The output channel (src/outputChannel.ts)

`ReprOutputChannel` wraps a VS Code output channel; it is modelled as the
list of lines appended so far. -/

/-- `ReprOutputChannel.appendLine`. -/
def appendLine (log : List String) (message : String) : List String :=
  log ++ [message]

/-- `ReprOutputChannel.appendError`: prefixes the line with "[ERROR] ". -/
def appendError (log : List String) (message : String) : List String :=
  log ++ ["[ERROR] " ++ message]

/-! ## The CLI adapter (src/cli.ts)

Each `ReprCLI` method builds a command-line string, runs it through
`execCommand`, and post-processes stdout.  The argument strings are factored
into `*Args` definitions (the source builds them inline with `let args = ...;
args += ...`), and each operation takes the outcome of its single subprocess
invocation as an explicit parameter. -/

/-- Outcome of one `execAsync` subprocess invocation: the promise either
resolves with the captured stdout/stderr, or rejects (non-zero exit) with an
error carrying a message and the captured stdout/stderr. -/
inductive SubprocOutcome where
  | completed (stdout stderr : String)
  | failed (message stdout stderr : String)

/-- The string a template literal `${error}` produces from a caught
exception.  The exact engine-produced text of `SyntaxError`/`TypeError`
messages is irrelevant to every claim; only the error-line structure is. -/
def errToString : JsError → String
  | .execError message _ _ => "Error: " ++ message
  | .newError message => "Error: " ++ message
  | .jsonParseError => "SyntaxError: Unexpected token in JSON"
  | .typeError => "TypeError: value has no such method"

/-- One hook entry as built by `ReprCLI.getHookStatus` (src/cli.ts:272-277). -/
structure HookEntry where
  name : String
  path : String
  installed : Bool
  executable : Bool
deriving DecidableEq

namespace ReprCLI

/-- Arguments of `getStatus` (src/cli.ts:157). -/
def statusArgs : String := "status --json"

/-- Arguments of `getStories` (src/cli.ts:172-176). -/
def storiesArgs (repo : Option String) : String :=
  let args := "stories --json"
  let args := match repo with
    | some r => if r == "" then args else args ++ " --repo \"" ++ r ++ "\""
    | none => args
  args

/-- Arguments of `getProfiles` (src/cli.ts:201). -/
def profilesArgs : String := "profiles --json"

/-- Arguments of `getConfig` (src/cli.ts:211). -/
def configArgs : String := "config --json"

/-- Arguments of `sync` (src/cli.ts:220-230). -/
def syncArgs (repo : Option String) (all background : Bool) : String :=
  let args := "sync --json"
  let args := match repo with
    | some r => if r == "" then args else args ++ " --repo \"" ++ r ++ "\""
    | none => args
  let args := if all then args ++ " --all" else args
  let args := if background then args ++ " --background" else args
  args

/-- Arguments of `getTrackedRepos` (src/cli.ts:243). -/
def trackedReposArgs : String := "repos list --json"

/-- Arguments of `getHookStatus` (src/cli.ts:261). -/
def hooksStatusArgs : String := "hooks status"

/-- Arguments of `whoami` (src/cli.ts:319). -/
def whoamiArgs : String := "whoami --json"

/-- Arguments of `getCommits` (src/cli.ts:334-347). -/
def getCommitsArgs (repo : Option String) (limit days : Option Int)
    (since : Option String) : String :=
  let args := "commits --json"
  let args := match repo with
    | some r => if r == "" then args else args ++ " --repo \"" ++ r ++ "\""
    | none => args
  let args := match limit with
    | some k => if k == 0 then args else args ++ " --limit " ++ toString k
    | none => args
  let args := match days with
    | some d => if d == 0 then args else args ++ " --days " ++ toString d
    | none => args
  let args := match since with
    | some s => if s == "" then args else args ++ " --since \"" ++ s ++ "\""
    | none => args
  args

/-- Arguments of `generateStory` (src/cli.ts:359-368). -/
def generateStoryArgs (commitShas : List String)
    (repo template customPrompt : Option String) : String :=
  let args := "story " ++ String.intercalate "," commitShas ++ " --json"
  let args := match repo with
    | some r => if r == "" then args else args ++ " --repo \"" ++ r ++ "\""
    | none => args
  let args := match template with
    | some t => if t == "" then args else args ++ " --template " ++ t
    | none => args
  let args := match customPrompt with
    | some c => if c == "" then args else args ++ " --custom-prompt \"" ++ c ++ "\""
    | none => args
  args

/-- Arguments of `getMode` (src/cli.ts:380). -/
def modeArgs : String := "mode --json"

/-- Arguments of `generate` (src/cli.ts:396-412); `localMode` is the
source's `options.local` (`local` is a Lean keyword). -/
def generateArgs (localMode : Bool) (template : Option String) (days : Option Int)
    (repo : Option String) (batchSize : Option Int) : String :=
  let args := "generate --json"
  let args := if localMode then args ++ " --local" else args
  let args := match template with
    | some t => if t == "" then args else args ++ " --template " ++ t
    | none => args
  let args := match days with
    | some d => if d == 0 then args else args ++ " --days " ++ toString d
    | none => args
  let args := match repo with
    | some r => if r == "" then args else args ++ " --repo \"" ++ r ++ "\""
    | none => args
  let args := match batchSize with
    | some b => if b == 0 then args else args ++ " --batch-size " ++ toString b
    | none => args
  args

/-- Arguments of `exportProfile` (src/cli.ts:424-427). -/
def exportProfileArgs (format : String) (since : Option String) : String :=
  let args := "profile export --format " ++ format
  let args := match since with
    | some s => if s == "" then args else args ++ " --since \"" ++ s ++ "\""
    | none => args
  args

/-- Arguments of `push` (src/cli.ts:439-449). -/
def pushArgs (all : Bool) (story : Option String) (dryRun : Bool) : String :=
  let args := "push --json"
  let args := if all then args ++ " --all" else args
  let args := match story with
    | some s => if s == "" then args else args ++ " --story " ++ s
    | none => args
  let args := if dryRun then args ++ " --dry-run" else args
  args

/-- Arguments of `pull` (src/cli.ts:461). -/
def pullArgs : String := "pull --json"

/-- `ReprCLI.execCommand` (src/cli.ts:469-525).  Logs the command line, runs
the subprocess, logs stdout/stderr and the duration; on success returns the
stdout, on failure logs the error and rethrows.  `parse` models `JSON.parse`
(returning `none` where `JSON.parse` would throw).

On failure the source runs
`try { const jsonError = JSON.parse(error.stdout);
       if (jsonError.error) { throw new Error(jsonError.error); } } catch { }`
and then `throw error`.  The `throw new Error(...)` sits inside that inner
`try`, so the inner empty `catch` swallows it: whatever the inner block does,
the error that escapes `execCommand` is always the original subprocess
error.  `innerTry` below reproduces this structure literally. -/
def execCommand (parse : String → Option JsValue) (cliPath args : String)
    (durationMs : Nat) (outcome : SubprocOutcome) (log : List String) :
    List String × Except JsError String :=
  let command := cliPath ++ " " ++ args
  let log := appendLine log ("> " ++ command)
  match outcome with
  | .completed stdout stderr =>
      let log := if stdout != "" then appendLine log stdout else log
      let log := if stderr != "" then appendLine log stderr else log
      let log := appendLine log ("Command completed in " ++ toString durationMs ++ "ms\n")
      (log, .ok stdout)
  | .failed message stdout stderr =>
      let log := appendError log
        ("Command failed after " ++ toString durationMs ++ "ms: " ++ message)
      let log := if stdout != "" then appendLine log stdout else log
      let log := if stderr != "" then appendError log stderr else log
      let innerTry : Except JsError Unit :=
        if stdout != "" then
          match parse stdout with
          | some jsonError =>
              if (jsonError.getProp "error").truthy then
                .error (.newError (jsonError.getProp "error").coerceString)
              else .ok ()
          | none => .error .jsonParseError
        else .ok ()
      match innerTry with
      | .ok _ => (log, .error (.execError message stdout stderr))
      | .error _ => (log, .error (.execError message stdout stderr))

end ReprCLI

/-- The observable result of running one `ReprCLI` operation: the output
channel after the call, the value the `async` method resolves with, and the
number of subprocess invocations the operation performed. -/
structure OpRun (α : Type) where
  log : List String
  result : α
  invocations : Nat

namespace ReprCLI

/-- The shared shape of the JSON query methods
(`try { const { stdout } = await this.execCommand(args); return JSON.parse(stdout); }
 catch (error) { this.outputChannel.appendError(failMsg + error); return null; }`). -/
def runJsonQuery (parse : String → Option JsValue) (cliPath : String) (durationMs : Nat)
    (args failMsg : String) (outcome : SubprocOutcome) (log : List String) :
    OpRun (Option JsValue) :=
  let (log, res) := execCommand parse cliPath args durationMs outcome log
  match res with
  | .ok stdout =>
      match parse stdout with
      | some parsed => ⟨log, some parsed, 1⟩
      | none => ⟨appendError log (failMsg ++ errToString .jsonParseError), none, 1⟩
  | .error e => ⟨appendError log (failMsg ++ errToString e), none, 1⟩

/-- Like `runJsonQuery` but for the methods whose catch returns `[]`
(`getTrackedRepos`, `getCommits`). -/
def runJsonQueryArr (parse : String → Option JsValue) (cliPath : String) (durationMs : Nat)
    (args failMsg : String) (outcome : SubprocOutcome) (log : List String) :
    OpRun JsValue :=
  let (log, res) := execCommand parse cliPath args durationMs outcome log
  match res with
  | .ok stdout =>
      match parse stdout with
      | some parsed => ⟨log, parsed, 1⟩
      | none => ⟨appendError log (failMsg ++ errToString .jsonParseError), .arr [], 1⟩
  | .error e => ⟨appendError log (failMsg ++ errToString e), .arr [], 1⟩

/-- `ReprCLI.getStatus` (src/cli.ts:155-163). -/
def getStatus (parse : String → Option JsValue) (cliPath : String) (durationMs : Nat)
    (outcome : SubprocOutcome) (log : List String) : OpRun (Option JsValue) :=
  runJsonQuery parse cliPath durationMs statusArgs "Failed to get status: " outcome log

/-- The post-processing `ReprCLI.getStories` applies to a parsed payload
(src/cli.ts:181-192): normalize to an array
(`Array.isArray(parsed) ? parsed : (parsed.stories || [])`), apply the
client-side limit (`options.limit ? stories.slice(0, options.limit) : stories`),
and return `{ stories: limitedStories, total: stories.length }`, modelled as
the pair (stories, total).  A `null` payload makes the `parsed.stories` read
throw, and a non-sliceable `stories` value makes `.slice` throw; both are
caught by the method's `catch`. -/
def storiesShape (limit : Option Int) (parsed : JsValue) :
    Except JsError (JsValue × JsValue) := do
  let stories : JsValue ←
    match parsed with
    | .arr _ => pure parsed
    | .jsNull => .error .typeError
    | .jsUndefined => .error .typeError
    | _ =>
        let v := parsed.getProp "stories"
        pure (if v.truthy then v else .arr [])
  let limited : JsValue ←
    match limit with
    | some k => if k == 0 then pure stories else stories.slice k
    | none => pure stories
  let total ← stories.lengthRead
  pure (limited, total)

/-- `ReprCLI.getStories` (src/cli.ts:165-197). -/
def getStories (parse : String → Option JsValue) (cliPath : String) (durationMs : Nat)
    (repo : Option String) (limit : Option Int) (outcome : SubprocOutcome)
    (log : List String) : OpRun (Option (JsValue × JsValue)) :=
  let (log, res) := execCommand parse cliPath (storiesArgs repo) durationMs outcome log
  match res with
  | .ok stdout =>
      match parse stdout with
      | none => ⟨appendError log ("Failed to get stories: " ++ errToString .jsonParseError),
                 none, 1⟩
      | some parsed =>
          match storiesShape limit parsed with
          | .ok st => ⟨log, some st, 1⟩
          | .error e => ⟨appendError log ("Failed to get stories: " ++ errToString e), none, 1⟩
  | .error e => ⟨appendError log ("Failed to get stories: " ++ errToString e), none, 1⟩

/-- `ReprCLI.getProfiles` (src/cli.ts:199-207). -/
def getProfiles (parse : String → Option JsValue) (cliPath : String) (durationMs : Nat)
    (outcome : SubprocOutcome) (log : List String) : OpRun (Option JsValue) :=
  runJsonQuery parse cliPath durationMs profilesArgs "Failed to get profiles: " outcome log

/-- `ReprCLI.getConfig` (src/cli.ts:209-217). -/
def getConfig (parse : String → Option JsValue) (cliPath : String) (durationMs : Nat)
    (outcome : SubprocOutcome) (log : List String) : OpRun (Option JsValue) :=
  runJsonQuery parse cliPath durationMs configArgs "Failed to get config: " outcome log

/-- `ReprCLI.sync` (src/cli.ts:219-239). -/
def sync (parse : String → Option JsValue) (cliPath : String) (durationMs : Nat)
    (repo : Option String) (all background : Bool) (outcome : SubprocOutcome)
    (log : List String) : OpRun (Option JsValue) :=
  runJsonQuery parse cliPath durationMs (syncArgs repo all background)
    "Failed to sync: " outcome log

/-- `ReprCLI.getTrackedRepos` (src/cli.ts:241-249); its catch returns `[]`. -/
def getTrackedRepos (parse : String → Option JsValue) (cliPath : String) (durationMs : Nat)
    (outcome : SubprocOutcome) (log : List String) : OpRun JsValue :=
  runJsonQueryArr parse cliPath durationMs trackedReposArgs
    "Failed to get tracked repos: " outcome log

/-- `line.replace(/^[○✓]\s*/, '').trim()` (src/cli.ts:269). -/
def stripHookMarker (line : String) : String :=
  let rest :=
    if strStartsWith line "○" || strStartsWith line "✓" then
      String.mk ((line.data.drop 1).dropWhile Char.isWhitespace)
    else line
  jsTrim rest

/-- The text parser of `ReprCLI.getHookStatus` (src/cli.ts:262-282): walk the
non-blank lines, remember the repo named by a `○`/`✓` line, and emit one
entry per subsequent "hook installed" line.  `currentRepo` is used under
JavaScript truthiness, so an empty repo name behaves like `null`. -/
def parseHookStatus (stdout : String) : List HookEntry :=
  let lines := (splitNewlines stdout).filter (fun l => jsTrim l != "")
  let step := fun (acc : List HookEntry × Option String) (line : String) =>
    let (hooks, currentRepo) := acc
    if strStartsWith line "○" || strStartsWith line "✓" then
      (hooks, some (stripHookMarker line))
    else
      match currentRepo with
      | some repo =>
          if repo != "" && strIncludes line "hook installed" then
            let installed := strIncludes line "✓" || !(strIncludes line "No hook")
            (hooks ++ [⟨repo, repo, installed, installed⟩], none)
          else (hooks, currentRepo)
      | none => (hooks, currentRepo)
  (lines.foldl step ([], none)).1

/-- `ReprCLI.getHookStatus` (src/cli.ts:259-287); its catch returns `[]`. -/
def getHookStatus (parse : String → Option JsValue) (cliPath : String) (durationMs : Nat)
    (outcome : SubprocOutcome) (log : List String) : OpRun (List HookEntry) :=
  let (log, res) := execCommand parse cliPath hooksStatusArgs durationMs outcome log
  match res with
  | .ok stdout => ⟨log, parseHookStatus stdout, 1⟩
  | .error e => ⟨appendError log ("Failed to get hook status: " ++ errToString e), [], 1⟩

/-- `ReprCLI.whoami` (src/cli.ts:317-325). -/
def whoami (parse : String → Option JsValue) (cliPath : String) (durationMs : Nat)
    (outcome : SubprocOutcome) (log : List String) : OpRun (Option JsValue) :=
  runJsonQuery parse cliPath durationMs whoamiArgs "Failed to get user info: " outcome log

/-- `ReprCLI.getCommits` (src/cli.ts:327-355); its catch returns `[]`. -/
def getCommits (parse : String → Option JsValue) (cliPath : String) (durationMs : Nat)
    (repo : Option String) (limit days : Option Int) (since : Option String)
    (outcome : SubprocOutcome) (log : List String) : OpRun JsValue :=
  runJsonQueryArr parse cliPath durationMs (getCommitsArgs repo limit days since)
    "Failed to get commits: " outcome log

/-- `ReprCLI.generateStory` (src/cli.ts:357-376). -/
def generateStory (parse : String → Option JsValue) (cliPath : String) (durationMs : Nat)
    (commitShas : List String) (repo template customPrompt : Option String)
    (outcome : SubprocOutcome) (log : List String) : OpRun (Option JsValue) :=
  runJsonQuery parse cliPath durationMs (generateStoryArgs commitShas repo template customPrompt)
    "Failed to generate story: " outcome log

/-- `ReprCLI.getMode` (src/cli.ts:378-386). -/
def getMode (parse : String → Option JsValue) (cliPath : String) (durationMs : Nat)
    (outcome : SubprocOutcome) (log : List String) : OpRun (Option JsValue) :=
  runJsonQuery parse cliPath durationMs modeArgs "Failed to get mode: " outcome log

/-- `ReprCLI.generate` (src/cli.ts:388-420). -/
def generate (parse : String → Option JsValue) (cliPath : String) (durationMs : Nat)
    (localMode : Bool) (template : Option String) (days : Option Int)
    (repo : Option String) (batchSize : Option Int) (outcome : SubprocOutcome)
    (log : List String) : OpRun (Option JsValue) :=
  runJsonQuery parse cliPath durationMs (generateArgs localMode template days repo batchSize)
    "Failed to generate stories: " outcome log

/-- `ReprCLI.exportProfile` (src/cli.ts:422-435): returns the raw stdout
(no JSON parsing), `null` on failure. -/
def exportProfile (parse : String → Option JsValue) (cliPath : String) (durationMs : Nat)
    (format : String) (since : Option String) (outcome : SubprocOutcome)
    (log : List String) : OpRun (Option String) :=
  let (log, res) := execCommand parse cliPath (exportProfileArgs format since)
    durationMs outcome log
  match res with
  | .ok stdout => ⟨log, some stdout, 1⟩
  | .error e => ⟨appendError log ("Failed to export profile: " ++ errToString e), none, 1⟩

/-- `ReprCLI.push` (src/cli.ts:437-457). -/
def push (parse : String → Option JsValue) (cliPath : String) (durationMs : Nat)
    (all : Bool) (story : Option String) (dryRun : Bool) (outcome : SubprocOutcome)
    (log : List String) : OpRun (Option JsValue) :=
  runJsonQuery parse cliPath durationMs (pushArgs all story dryRun)
    "Failed to push: " outcome log

/-- `ReprCLI.pull` (src/cli.ts:459-467). -/
def pull (parse : String → Option JsValue) (cliPath : String) (durationMs : Nat)
    (outcome : SubprocOutcome) (log : List String) : OpRun (Option JsValue) :=
  runJsonQuery parse cliPath durationMs pullArgs "Failed to pull: " outcome log

end ReprCLI

/-! ## The dashboard (src/dashboard.ts) -/

/-- Global single-character replacement, the effect of
`text.replace(/c/g, rep)` for a one-character pattern `c`. -/
def replaceChar (c : Char) (rep : List Char) : List Char → List Char
  | [] => []
  | x :: xs => (if x == c then rep else [x]) ++ replaceChar c rep xs

/-- The double-quote character. -/
def quoteChar : Char := Char.ofNat 34

/-- The apostrophe character. -/
def aposChar : Char := Char.ofNat 39

namespace ReprDashboard

/-- `ReprDashboard.escapeHtml` (src/dashboard.ts:2304-2312): `null`,
`undefined` and `""` (all falsy) map to `""`; otherwise the five chained
global replaces are applied in the source's order. -/
def escapeHtml (text : Option String) : String :=
  match text with
  | none => ""
  | some s =>
      if s == "" then ""
      else
        String.mk
          (replaceChar aposChar ("&#039;".data)
            (replaceChar quoteChar ("&quot;".data)
              (replaceChar '>' ("&gt;".data)
                (replaceChar '<' ("&lt;".data)
                  (replaceChar '&' ("&amp;".data) s.data)))))

/-- Specification-side per-character entity map: each of the five special
characters becomes its HTML entity, every other character is unchanged. -/
def escChar (x : Char) : List Char :=
  if x == '&' then "&amp;".data
  else if x == '<' then "&lt;".data
  else if x == '>' then "&gt;".data
  else if x == quoteChar then "&quot;".data
  else if x == aposChar then "&#039;".data
  else [x]

/-- The characters the escaped output must not contain. -/
def htmlForbidden : List Char := ['<', '>', quoteChar, aposChar]

end ReprDashboard

/-! ### The refresh data flow (src/dashboard.ts:94-130)

`refresh` races each of the five CLI queries against a 10000 ms timer
(`timeout = (promise, ms) => Promise.race([promise, new Promise(resolve =>
setTimeout(() => resolve(null), ms))])`) and assembles the arguments of
`getHtmlContent` from the raced results. -/

/-- How one already-started query promise behaves: it resolves with a value
at some time, or never settles within the observation window. -/
inductive QueryOutcome (α : Type) where
  | resolvesAt (t : Nat) (v : α)
  | pending

/-- The `timeout` helper of `refresh`: the query's value if it resolves
before the timer fires, `null` (modelled as `none`) otherwise. -/
def raceTimeout {α : Type} (q : QueryOutcome α) (ms : Nat) : Option α :=
  match q with
  | .resolvesAt t v => if t < ms then some v else none
  | .pending => none

/-- The outcomes of the five query promises started by one refresh. -/
structure RefreshOutcomes where
  status : QueryOutcome (Option JsValue)
  mode : QueryOutcome (Option JsValue)
  trackedRepos : QueryOutcome JsValue
  hookStatus : QueryOutcome (List HookEntry)
  stories : QueryOutcome (Option (JsValue × JsValue))

/-- The arguments `refresh` passes to `getHtmlContent`
(src/dashboard.ts:123-124). -/
structure RefreshData where
  status : Option JsValue
  mode : Option JsValue
  trackedRepos : JsValue
  hookStatus : List HookEntry
  storiesCount : JsValue

namespace ReprDashboard

/-- `storiesData?.stories?.length || storiesData?.total || 0`
(src/dashboard.ts:123). -/
def actualStoriesCount (storiesData : Option (JsValue × JsValue)) : JsValue :=
  let lenVal : JsValue :=
    match storiesData with
    | none => .jsUndefined
    | some (stories, _) => stories.optLength
  if lenVal.truthy then lenVal
  else
    let totalVal : JsValue :=
      match storiesData with
      | none => .jsUndefined
      | some (_, total) => total
    if totalVal.truthy then totalVal else .num 0

/-- The data `refresh` assembles from the five raced queries
(src/dashboard.ts:115-124): each query is raced against its own 10000 ms
timer; a timed-out query contributes `null`, which `|| []` turns into an
empty list for the two list-shaped queries. -/
def refreshData (o : RefreshOutcomes) : RefreshData :=
  let status := Option.join (raceTimeout o.status 10000)
  let mode := Option.join (raceTimeout o.mode 10000)
  let trackedRepos : JsValue :=
    match raceTimeout o.trackedRepos 10000 with
    | some v => if v.truthy then v else .arr []
    | none => .arr []
  let hookStatus : List HookEntry :=
    match raceTimeout o.hookStatus 10000 with
    | some l => l
    | none => []
  let storiesData := Option.join (raceTimeout o.stories 10000)
  ⟨status, mode, trackedRepos, hookStatus, actualStoriesCount storiesData⟩

/-- The `try` block of `refresh` (src/dashboard.ts:106-129).  The five query
operations are embedded as total functions (each catches its own errors, see
the `ReprCLI` operations), so the awaited `Promise.all` always resolves and
the `catch` branch that would replace the webview with an error page is
never taken: the result is always `.ok`. -/
def refreshRender (o : RefreshOutcomes) : Except String RefreshData :=
  .ok (refreshData o)

end ReprDashboard

/-! ### The subprocess schedule of a refresh

In Node, an `async` function runs synchronously up to its first `await`, and
`execAsync(command)` spawns the subprocess at the moment it is called.  So
evaluating the array literal passed to `Promise.all` (left to right) spawns
all five subprocesses before any of them can be observed to exit: exit
events are only delivered once the current synchronous job has finished.
The schedule is modelled as a list of spawn/exit events. -/

/-- A spawn or exit of a CLI subprocess, identified by its argument string. -/
inductive SpawnEvent where
  | spawn (args : String)
  | exit (args : String)
deriving DecidableEq

/-- A promise expression as built by `refresh`: a CLI call (spawning its
subprocess on creation), a race against a timer, or a `Promise.all`. -/
inductive PromiseExpr where
  | cliCall (args : String)
  | raceTimer (p : PromiseExpr) (ms : Nat)
  | allOf (ps : List PromiseExpr)

mutual

/-- The subprocesses spawned, in order, while a promise expression is being
created (before control returns to the event loop). -/
def spawnsOf : PromiseExpr → List String
  | .cliCall args => [args]
  | .raceTimer p _ => spawnsOf p
  | .allOf ps => spawnsOfList ps

/-- `spawnsOf` over a list of promise expressions (evaluated left to right). -/
def spawnsOfList : List PromiseExpr → List String
  | [] => []
  | p :: ps => spawnsOf p ++ spawnsOfList ps

end

/-- Number of subprocesses in flight after each event of a schedule,
starting from `n` in flight. -/
def inFlightCounts : List SpawnEvent → Nat → List Nat
  | [], _ => []
  | .spawn _ :: rest, n => (n + 1) :: inFlightCounts rest (n + 1)
  | .exit _ :: rest, n => (n - 1) :: inFlightCounts rest (n - 1)

/-- "CLI invocations are awaited one at a time": no point of the schedule
has two subprocesses in flight. -/
def atMostOneInFlight (t : List SpawnEvent) : Bool :=
  (inFlightCounts t 0).all (fun n => decide (n ≤ 1))

/-- The largest number of subprocesses simultaneously in flight. -/
def maxInFlight (t : List SpawnEvent) : Nat :=
  (inFlightCounts t 0).foldl max 0

/-- The schedule of a caller that awaits each call before issuing the next
(spawn, await exit, spawn the next, ...). -/
def sequentialSchedule (qs : List String) : List SpawnEvent :=
  match qs with
  | [] => []
  | q :: rest => SpawnEvent.spawn q :: SpawnEvent.exit q :: sequentialSchedule rest

namespace ReprDashboard

/-- The expression awaited by `refresh` (src/dashboard.ts:115-121): a
`Promise.all` of the five queries, each raced against a 10000 ms timer.  The
stories query is `getStories({ limit: 100 })`: the limit is applied
client-side, so its command line has no repo filter. -/
def refreshExpr : PromiseExpr :=
  .allOf
    [ .raceTimer (.cliCall ReprCLI.statusArgs) 10000,
      .raceTimer (.cliCall ReprCLI.modeArgs) 10000,
      .raceTimer (.cliCall ReprCLI.trackedReposArgs) 10000,
      .raceTimer (.cliCall ReprCLI.hooksStatusArgs) 10000,
      .raceTimer (.cliCall (ReprCLI.storiesArgs none)) 10000 ]

/-- One realizable schedule of a refresh: the synchronous creation phase
spawns all five subprocesses, and (in this schedule) they later exit in the
same order.  Any realizable schedule has this spawn-phase prefix. -/
def refreshSchedule : List SpawnEvent :=
  (spawnsOf refreshExpr).map SpawnEvent.spawn ++ (spawnsOf refreshExpr).map SpawnEvent.exit

end ReprDashboard

/-! ## The status bar (src/statusBar.ts) -/

/-- The status-bar states (src/statusBar.ts:4-11). -/
inductive StatusBarState where
  | notInstalled
  | notAuthenticated
  | synced
  | pendingChanges
  | analyzing
  | syncing
  | error
deriving DecidableEq

/-- The mutable fields of a `ReprStatusBar`: the stored state, the VS Code
status-bar item's text/tooltip/background, the remembered last-sync time
(a millisecond timestamp), and item visibility. -/
structure StatusBarModel where
  currentState : StatusBarState
  text : String
  tooltip : String
  background : Option String
  lastSyncTime : Option Nat
  visible : Bool
deriving DecidableEq

/-- JavaScript `v || d` for an optional string `v` (an absent or empty
string falls back to the default). -/
def orDefault (v : Option String) (d : String) : String :=
  match v with
  | some s => if s == "" then d else s
  | none => d

namespace ReprStatusBar

/-- `ReprStatusBar.getTimeSince` (src/statusBar.ts:46-57).  Times are
millisecond timestamps; `Nat` subtraction truncates a negative difference
to `0`, which lands in the same "just now" bucket JavaScript's negative
seconds would. -/
def getTimeSince (nowMs dateMs : Nat) : String :=
  let seconds := (nowMs - dateMs) / 1000
  if seconds < 60 then "just now"
  else
    let minutes := seconds / 60
    if minutes < 60 then toString minutes ++ "m ago"
    else
      let hours := minutes / 60
      if hours < 24 then toString hours ++ "h ago"
      else toString (hours / 24) ++ "d ago"

/-- `ReprStatusBar.setState` (src/statusBar.ts:59-110): store the state and
render text/tooltip/background from the switch.  The `synced` case first
sets `lastSyncTime` to the current time (both `new Date()` readings are the
same `nowMs` instant). -/
def setState (nowMs : Nat) (state : StatusBarState) (details : Option String)
    (st : StatusBarModel) : StatusBarModel :=
  let st := { st with currentState := state }
  match state with
  | .notInstalled =>
      { st with text := "$(warning) Repr: Not Installed",
                tooltip := "Repr CLI is not installed. Click to install.",
                background := some "statusBarItem.warningBackground" }
  | .notAuthenticated =>
      { st with text := "$(lock) Repr: Login Required",
                tooltip := "Click to login to Repr",
                background := some "statusBarItem.warningBackground" }
  | .synced =>
      let st := { st with lastSyncTime := some nowMs }
      let timeSince :=
        match st.lastSyncTime with
        | some d => getTimeSince nowMs d
        | none => ""
      { st with text := "$(check) Repr: " ++ (if timeSince == "" then "Synced" else timeSince),
                tooltip := "Your profile is up to date",
                background := none }
  | .pendingChanges =>
      { st with text := "$(sync) Repr: " ++ orDefault details "Changes detected",
                tooltip := "You have " ++ orDefault details "new changes" ++ ". Click to sync.",
                background := some "statusBarItem.prominentBackground" }
  | .analyzing =>
      { st with text := "$(loading~spin) Repr: Syncing...",
                tooltip := "Syncing your repositories...",
                background := none }
  | .syncing =>
      { st with text := "$(loading~spin) Repr: Syncing...",
                tooltip := "Syncing your repositories...",
                background := none }
  | .error =>
      { st with text := "$(error) Repr: Error",
                tooltip := orDefault details "An error occurred. Click for details.",
                background := some "statusBarItem.errorBackground" }

/-- `ReprStatusBar.getState` (src/statusBar.ts:112-114). -/
def getState (st : StatusBarModel) : StatusBarState :=
  st.currentState

/-- `ReprStatusBar.updateSyncTime` (src/statusBar.ts:35-44): record the
CLI-reported `last_analyze` time if present and truthy (the parsed
timestamp is the explicit parameter; errors are swallowed). -/
def updateSyncTime (lastAnalyzeMs : Option Nat) (st : StatusBarModel) : StatusBarModel :=
  match lastAnalyzeMs with
  | some t => { st with lastSyncTime := some t }
  | none => st

/-- `ReprStatusBar.show` (src/statusBar.ts:116-118). -/
def showBar (st : StatusBarModel) : StatusBarModel :=
  { st with visible := true }

/-- `ReprStatusBar.hide` (src/statusBar.ts:120-122). -/
def hideBar (st : StatusBarModel) : StatusBarModel :=
  { st with visible := false }

/-- Specification-side rendering table for the status-bar text: the fixed
text determined by the state (and, for `pendingChanges`, the details).  In
the `synced` case `setState` has just reset `lastSyncTime` to the present
instant, so the rendered age is always "just now". -/
def renderText (state : StatusBarState) (details : Option String) : String :=
  match state with
  | .notInstalled => "$(warning) Repr: Not Installed"
  | .notAuthenticated => "$(lock) Repr: Login Required"
  | .synced => "$(check) Repr: just now"
  | .pendingChanges => "$(sync) Repr: " ++ orDefault details "Changes detected"
  | .analyzing => "$(loading~spin) Repr: Syncing..."
  | .syncing => "$(loading~spin) Repr: Syncing..."
  | .error => "$(error) Repr: Error"

/-- Specification-side rendering table for the status-bar tooltip. -/
def renderTooltip (state : StatusBarState) (details : Option String) : String :=
  match state with
  | .notInstalled => "Repr CLI is not installed. Click to install."
  | .notAuthenticated => "Click to login to Repr"
  | .synced => "Your profile is up to date"
  | .pendingChanges => "You have " ++ orDefault details "new changes" ++ ". Click to sync."
  | .analyzing => "Syncing your repositories..."
  | .syncing => "Syncing your repositories..."
  | .error => orDefault details "An error occurred. Click for details."

end ReprStatusBar

/-! ## The extension entry point (src/extension.ts)

Claim C3 is about state the command handlers change outside the extension
process.  Each handler is projected onto the trace of
`config.update(key, value, true)` calls it performs (the third argument
`true` is `ConfigurationTarget.Global`, i.e. the update is persisted to the
user's settings); every other effect of the handlers is either a CLI
invocation (state inside the CLI's own storage) or transient UI.  The
user-interaction results each handler awaits are explicit parameters. -/

/-- A value written to the editor configuration by this extension. -/
inductive ConfigValue where
  | str (s : String)
  | bool (b : Bool)
deriving DecidableEq

/-- One `config.update(key, value, global)` call. -/
structure ConfigUpdate where
  key : String
  value : ConfigValue
  global : Bool
deriving DecidableEq

/-- The provider chosen in the `handleConfigureLLM` quick pick. -/
inductive LLMProvider where
  | cloud
  | localProvider
deriving DecidableEq

/-- The `value` field of the chosen provider item (src/extension.ts:719-730). -/
def LLMProvider.value : LLMProvider → String
  | .cloud => "cloud"
  | .localProvider => "local"

/-- Configuration updates performed by `handleConfigureLLM`
(src/extension.ts:714-796), as a function of the user's answers: the chosen
provider (`none` = dismissed), the endpoint/model/apiKey input-box results
(`none` = cancelled, `some s` = entered, including `""`), and the
"needs API key" quick-pick answer. -/
def handleConfigureLLM_configUpdates (provider : Option LLMProvider)
    (endpoint model : Option String) (needsApiKey : Option String)
    (apiKey : Option String) : List ConfigUpdate :=
  match provider with
  | none => []
  | some p =>
      [⟨"llm.provider", .str p.value, true⟩] ++
      match p with
      | .localProvider =>
          (match endpoint with
           | some e => [⟨"llm.endpoint", .str e, true⟩]
           | none => []) ++
          (match model with
           | some m => [⟨"llm.model", .str m, true⟩]
           | none => []) ++
          (if needsApiKey == some "Yes" then
             match apiKey with
             | some k => [⟨"llm.apiKey", .str k, true⟩]
             | none => []
           else if needsApiKey == some "No" then
             [⟨"llm.apiKey", .str "", true⟩]
           else [])
      | .cloud =>
          [⟨"llm.endpoint", .str "", true⟩,
           ⟨"llm.model", .str "", true⟩,
           ⟨"llm.apiKey", .str "", true⟩]

/-- Configuration updates performed by `discoverAndPromptForRepos`
(src/extension.ts:656-712): a single persisted
`autoDetect.promptForNewRepos = false` exactly when every gate passes, the
workspace is a git repo, and the user answers "Don't Ask Again". -/
def discoverAndPromptForRepos_configUpdates (promptEnabled isInstalled hasWorkspace : Bool)
    (trackedRepoCount : Nat) (gitDirIsDirectory : Option Bool)
    (action : Option String) : List ConfigUpdate :=
  if !promptEnabled then []
  else if !isInstalled then []
  else if !hasWorkspace then []
  else if trackedRepoCount > 0 then []
  else
    match gitDirIsDirectory with
    | some true =>
        if action == some "Yes" then []
        else if action == some "Don\x27t Ask Again" then
          [⟨"autoDetect.promptForNewRepos", .bool false, true⟩]
        else []
    | some false => []
    | none => []

/-- `handleSync` (src/extension.ts:201-233) performs no configuration update. -/
def handleSync_configUpdates : List ConfigUpdate := []

/-- `handleAddCurrentRepo` (src/extension.ts:235-251): no configuration update. -/
def handleAddCurrentRepo_configUpdates : List ConfigUpdate := []

/-- `handleCheckHookStatus` (src/extension.ts:253-317): no configuration update. -/
def handleCheckHookStatus_configUpdates : List ConfigUpdate := []

/-- `handleInstallHook` (src/extension.ts:319-377): no configuration update. -/
def handleInstallHook_configUpdates : List ConfigUpdate := []

/-- `handleRemoveHook` (src/extension.ts:379-484): no configuration update. -/
def handleRemoveHook_configUpdates : List ConfigUpdate := []

/-- `handleShowStories` (src/extension.ts:486-489): no configuration update. -/
def handleShowStories_configUpdates : List ConfigUpdate := []

/-- `handleLogin` (src/extension.ts:491-509): no configuration update. -/
def handleLogin_configUpdates : List ConfigUpdate := []

/-- `handleLogout` (src/extension.ts:511-531): no configuration update. -/
def handleLogout_configUpdates : List ConfigUpdate := []

/-- `handleShareProfile` (src/extension.ts:533-554): no configuration update. -/
def handleShareProfile_configUpdates : List ConfigUpdate := []

/-- `handleOpenPublicProfile` (src/extension.ts:556-575): no configuration update. -/
def handleOpenPublicProfile_configUpdates : List ConfigUpdate := []

/-- `handleAddRepo` (src/extension.ts:577-600): no configuration update. -/
def handleAddRepo_configUpdates : List ConfigUpdate := []

/-- `handleRemoveRepo` (src/extension.ts:602-642): no configuration update. -/
def handleRemoveRepo_configUpdates : List ConfigUpdate := []

/-- `handleListRepos` (src/extension.ts:644-654): no configuration update. -/
def handleListRepos_configUpdates : List ConfigUpdate := []

/-- `handleShowCommits` (src/extension.ts:798-887): no configuration update. -/
def handleShowCommits_configUpdates : List ConfigUpdate := []

/-- `handleGenerateLocal` (src/extension.ts:889-916): no configuration update. -/
def handleGenerateLocal_configUpdates : List ConfigUpdate := []

/-- `handleExportMarkdown` (src/extension.ts:918-933): no configuration update. -/
def handleExportMarkdown_configUpdates : List ConfigUpdate := []

/-- The `repr.openDashboard` handler (src/extension.ts:37-39): no
configuration update. -/
def openDashboard_configUpdates : List ConfigUpdate := []

/-- The `repr.refreshDashboard` handler (src/extension.ts:43-45): no
configuration update. -/
def refreshDashboard_configUpdates : List ConfigUpdate := []

/-- `checkCLIInstallation` (src/extension.ts:168-199): no configuration
update. -/
def checkCLIInstallation_configUpdates : List ConfigUpdate := []

/-! ## Helper definitions and lemmas for the claims -/

/-- The argument string contains the literal flag `--json`. -/
def containsJsonFlag (s : String) : Prop :=
  ∃ pre post : String, s = pre ++ "--json" ++ post

theorem containsJsonFlag_appendRight (s t : String) (h : containsJsonFlag s) :
    containsJsonFlag (s ++ t) := by
  obtain ⟨a, b, rfl⟩ := h
  exact ⟨a, b ++ t, String.append_assoc _ b t⟩

theorem containsJsonFlag_appendLeft (s t : String) (h : containsJsonFlag t) :
    containsJsonFlag (s ++ t) := by
  obtain ⟨a, b, rfl⟩ := h
  exact ⟨s ++ a, b, by simp [String.append_assoc]⟩

/-- The output-channel lines `execCommand` appends for a failed invocation
(src/cli.ts:497-509). -/
def failedLog (cliPath args : String) (durationMs : Nat) (m so se : String)
    (log : List String) : List String :=
  let log := appendLine log ("> " ++ (cliPath ++ " " ++ args))
  let log := appendError log ("Command failed after " ++ toString durationMs ++ "ms: " ++ m)
  let log := if so != "" then appendLine log so else log
  let log := if se != "" then appendError log se else log
  log

/-- The output-channel lines `execCommand` appends for a completed
invocation (src/cli.ts:472-494). -/
def completedLog (cliPath args : String) (durationMs : Nat) (so se : String)
    (log : List String) : List String :=
  let log := appendLine log ("> " ++ (cliPath ++ " " ++ args))
  let log := if so != "" then appendLine log so else log
  let log := if se != "" then appendLine log se else log
  appendLine log ("Command completed in " ++ toString durationMs ++ "ms\n")

theorem execCommand_completed_eq (parse : String → Option JsValue) (cliPath args : String)
    (durationMs : Nat) (so se : String) (log : List String) :
    ReprCLI.execCommand parse cliPath args durationMs (.completed so se) log =
      (completedLog cliPath args durationMs so se log, .ok so) := by
  unfold ReprCLI.execCommand completedLog
  rfl

theorem execCommand_failed_eq (parse : String → Option JsValue) (cliPath args : String)
    (durationMs : Nat) (m so se : String) (log : List String) :
    ReprCLI.execCommand parse cliPath args durationMs (.failed m so se) log =
      (failedLog cliPath args durationMs m so se log, .error (.execError m so se)) := by
  unfold ReprCLI.execCommand failedLog
  dsimp only
  split <;> rfl

/-! ### Lemmas about `escapeHtml` -/

/-- The five chained replaces of `escapeHtml`, at the character-list level. -/
def escapeChain (l : List Char) : List Char :=
  replaceChar aposChar ("&#039;".data)
    (replaceChar quoteChar ("&quot;".data)
      (replaceChar '>' ("&gt;".data)
        (replaceChar '<' ("&lt;".data)
          (replaceChar '&' ("&amp;".data) l))))

theorem replaceChar_append (c : Char) (rep l₁ l₂ : List Char) :
    replaceChar c rep (l₁ ++ l₂) = replaceChar c rep l₁ ++ replaceChar c rep l₂ := by
  induction l₁ with
  | nil => rfl
  | cons x xs ih => simp [replaceChar, ih]

theorem escapeChain_append (l₁ l₂ : List Char) :
    escapeChain (l₁ ++ l₂) = escapeChain l₁ ++ escapeChain l₂ := by
  simp [escapeChain, replaceChar_append]

theorem escapeChain_single (x : Char) :
    escapeChain [x] = ReprDashboard.escChar x := by
  by_cases hamp : x = '&'
  · subst hamp; decide
  by_cases hlt : x = '<'
  · subst hlt; decide
  by_cases hgt : x = '>'
  · subst hgt; decide
  by_cases hq : x = quoteChar
  · subst hq; decide
  by_cases ha : x = aposChar
  · subst ha; decide
  simp [escapeChain, replaceChar, ReprDashboard.escChar, hamp, hlt, hgt, hq, ha]

theorem escapeChain_eq_flatMap (l : List Char) :
    escapeChain l = l.flatMap ReprDashboard.escChar := by
  induction l with
  | nil => rfl
  | cons x xs ih =>
      rw [List.flatMap_cons, ← ih, ← escapeChain_single x]
      exact escapeChain_append [x] xs

theorem escChar_no_forbidden (x : Char) :
    (ReprDashboard.escChar x).all
      (fun c => !(ReprDashboard.htmlForbidden.contains c)) = true := by
  by_cases hamp : x = '&'
  · subst hamp; decide
  by_cases hlt : x = '<'
  · subst hlt; decide
  by_cases hgt : x = '>'
  · subst hgt; decide
  by_cases hq : x = quoteChar
  · subst hq; decide
  by_cases ha : x = aposChar
  · subst ha; decide
  simp [ReprDashboard.escChar, ReprDashboard.htmlForbidden, hamp, hlt, hgt, hq, ha]

theorem flatMap_escChar_no_forbidden (l : List Char) :
    ((l.flatMap ReprDashboard.escChar).all
      (fun c => !(ReprDashboard.htmlForbidden.contains c))) = true := by
  induction l with
  | nil => rfl
  | cons x xs ih =>
      rw [List.flatMap_cons, List.all_append]
      rw [escChar_no_forbidden, ih]
      rfl

/-- C9: `escapeHtml` replaces every occurrence of the five special
characters by its HTML entity (character-by-character, via `escChar`), so
its output contains none of `<`, `>`, `"`, `'`; and `null`, `undefined`
and `""` inputs yield `""`. -/
theorem escapeHtml_spec (text : Option String) :
    (ReprDashboard.escapeHtml text).data =
      (match text with
       | none => []
       | some s => s.data.flatMap ReprDashboard.escChar) ∧
    ((ReprDashboard.escapeHtml text).data.all
       (fun c => !(ReprDashboard.htmlForbidden.contains c)) = true) ∧
    ReprDashboard.escapeHtml none = "" ∧
    ReprDashboard.escapeHtml (some "") = "" := by
  have hmain : (ReprDashboard.escapeHtml text).data =
      (match text with
       | none => []
       | some s => s.data.flatMap ReprDashboard.escChar) := by
    match text with
    | none => rfl
    | some s =>
        by_cases hs : s == ""
        · have hse : s = "" := eq_of_beq hs
          subst hse
          rfl
        · show (ReprDashboard.escapeHtml (some s)).data = s.data.flatMap ReprDashboard.escChar
          simp only [ReprDashboard.escapeHtml]
          rw [if_neg hs]
          exact escapeChain_eq_flatMap s.data
  refine ⟨hmain, ?_, rfl, rfl⟩
  rw [hmain]
  match text with
  | none => rfl
  | some s => exact flatMap_escChar_no_forbidden s.data

/-! ### Lemmas about subprocess schedules -/

theorem sequentialSchedule_one_at_a_time (qs : List String) :
    atMostOneInFlight (sequentialSchedule qs) = true := by
  induction qs with
  | nil => rfl
  | cons q rest ih =>
      simpa [sequentialSchedule, inFlightCounts, atMostOneInFlight] using ih

/-- C1 counterexample: the very schedule `refresh` produces (all five
queries spawned by the synchronous creation phase of the `Promise.all`
argument array, exits delivered afterwards) has points with more than one
CLI invocation in flight, so CLI invocations are not awaited one at a time
and the five refresh queries are not issued sequentially. -/
theorem refresh_schedule_not_one_at_a_time :
    atMostOneInFlight ReprDashboard.refreshSchedule = false := by decide

/-- C1 (amended): during a dashboard refresh the five CLI queries (status,
mode, tracked repos, hook status, stories) are issued concurrently through
`Promise.all`: creating the argument array spawns all five subprocesses
before any exit can be observed, so five CLI invocations are in flight
simultaneously — whereas a caller that awaited each call before issuing the
next (what the claim describes) would never have two in flight. -/
theorem refresh_queries_concurrent :
    spawnsOf ReprDashboard.refreshExpr =
      [ReprCLI.statusArgs, ReprCLI.modeArgs, ReprCLI.trackedReposArgs,
       ReprCLI.hooksStatusArgs, ReprCLI.storiesArgs none] ∧
    maxInFlight ReprDashboard.refreshSchedule = 5 ∧
    (∀ qs : List String, atMostOneInFlight (sequentialSchedule qs) = true) := by
  refine ⟨by decide, by decide, sequentialSchedule_one_at_a_time⟩

/-- The JSON-error stdout of the C4 failing input. -/
def errorJsonStdout : String := "\x7b\"error\": \"boom\"\x7d"

/-- A `JSON.parse` model that parses the C4 failing input to the object
`\x7b error: "boom" \x7d`. -/
def errorJsonParse : String → Option JsValue :=
  fun s => if s == errorJsonStdout then some (.obj [("error", .str "boom")]) else none

/-- C4: on a failed subprocess, `execCommand` logs the failure and throws —
but it always rethrows the *original* subprocess error, never the
`new Error(jsonError.error)` the source tries to build: that `throw` sits
inside the inner `try { ... } catch { }`, whose empty `catch` swallows it.
In particular, even with stdout that parses to an object with a truthy
`error` field ("boom"), the thrown error is the original one and not
`Error("boom")` — contradicting the claim (and the code's own comments,
which reserve the original error for the "Not JSON" case). -/
theorem execCommand_rethrows_original (parse : String → Option JsValue)
    (cliPath args : String) (durationMs : Nat) (m so se : String) (log : List String) :
    ((ReprCLI.execCommand parse cliPath args durationMs (.failed m so se) log).2 =
       .error (.execError m so se) ∧
     (ReprCLI.execCommand parse cliPath args durationMs (.failed m so se) log).1 =
       failedLog cliPath args durationMs m so se log) ∧
    ((ReprCLI.execCommand errorJsonParse "repr" "push --json" 5
        (.failed "Command failed: repr push --json" errorJsonStdout "") []).2 =
       .error (.execError "Command failed: repr push --json" errorJsonStdout "") ∧
     (ReprCLI.execCommand errorJsonParse "repr" "push --json" 5
        (.failed "Command failed: repr push --json" errorJsonStdout "") []).2 ≠
       .error (.newError "boom")) := by
  refine ⟨⟨?_, ?_⟩, ?_, ?_⟩
  · rw [execCommand_failed_eq]
  · rw [execCommand_failed_eq]
  · rw [execCommand_failed_eq]
  · rw [execCommand_failed_eq]
    intro hc
    exact JsError.noConfusion (Except.error.inj hc)

/-- C8: immediately after `setState(s, details)` the stored state returned
by `getState` is `s`, and the status-bar text and tooltip are the fixed
rendering determined by `s` (and by `details` only for `pendingChanges` and
`error`); the rendering does not depend on the previous model state or on
the clock, and no other operation (`updateSyncTime`, `show`, `hide`)
changes the stored state. -/
theorem statusBar_setState_spec (nowMs : Nat) (s : StatusBarState)
    (details : Option String) (st : StatusBarModel) :
    ReprStatusBar.getState (ReprStatusBar.setState nowMs s details st) = s ∧
    (ReprStatusBar.setState nowMs s details st).text =
      ReprStatusBar.renderText s details ∧
    (ReprStatusBar.setState nowMs s details st).tooltip =
      ReprStatusBar.renderTooltip s details ∧
    (∀ p, ReprStatusBar.getState (ReprStatusBar.updateSyncTime p st) =
      ReprStatusBar.getState st) ∧
    ReprStatusBar.getState (ReprStatusBar.showBar st) = ReprStatusBar.getState st ∧
    ReprStatusBar.getState (ReprStatusBar.hideBar st) = ReprStatusBar.getState st := by
  refine ⟨?_, ?_, ?_, ?_, rfl, rfl⟩
  · cases s <;> rfl
  · cases s <;>
      simp [ReprStatusBar.setState, ReprStatusBar.renderText, ReprStatusBar.getTimeSince,
        Nat.sub_self]
  · cases s <;>
      simp [ReprStatusBar.setState, ReprStatusBar.renderTooltip]
  · intro p
    cases p <;> rfl

/-- C5: during a dashboard refresh each of the five CLI queries is raced
against its own fixed 10000 ms timeout, handled independently per call: a
query that has not resolved within the timeout contributes `null` (which
`|| []` renders as an empty list for the two list-shaped queries, and which
yields a story count of 0), while the raced results of the other queries
are still used; and the assembly never throws — `refreshRender` is `.ok`
for every combination of outcomes. -/
theorem refresh_timeout_independent (o : RefreshOutcomes) :
    (ReprDashboard.refreshRender o = .ok (ReprDashboard.refreshData o)) ∧
    (o.status = .pending → (ReprDashboard.refreshData o).status = none) ∧
    (∀ t v, 10000 ≤ t → o.status = .resolvesAt t v →
      (ReprDashboard.refreshData o).status = none) ∧
    (∀ t v, t < 10000 → o.status = .resolvesAt t v →
      (ReprDashboard.refreshData o).status = v) ∧
    (o.mode = .pending → (ReprDashboard.refreshData o).mode = none) ∧
    (∀ t v, 10000 ≤ t → o.mode = .resolvesAt t v →
      (ReprDashboard.refreshData o).mode = none) ∧
    (∀ t v, t < 10000 → o.mode = .resolvesAt t v →
      (ReprDashboard.refreshData o).mode = v) ∧
    (o.trackedRepos = .pending → (ReprDashboard.refreshData o).trackedRepos = .arr []) ∧
    (∀ t v, 10000 ≤ t → o.trackedRepos = .resolvesAt t v →
      (ReprDashboard.refreshData o).trackedRepos = .arr []) ∧
    (∀ t v, t < 10000 → o.trackedRepos = .resolvesAt t v →
      (ReprDashboard.refreshData o).trackedRepos = (if v.truthy then v else .arr [])) ∧
    (o.hookStatus = .pending → (ReprDashboard.refreshData o).hookStatus = []) ∧
    (∀ t v, 10000 ≤ t → o.hookStatus = .resolvesAt t v →
      (ReprDashboard.refreshData o).hookStatus = []) ∧
    (∀ t v, t < 10000 → o.hookStatus = .resolvesAt t v →
      (ReprDashboard.refreshData o).hookStatus = v) ∧
    (o.stories = .pending → (ReprDashboard.refreshData o).storiesCount = .num 0) ∧
    (∀ t v, 10000 ≤ t → o.stories = .resolvesAt t v →
      (ReprDashboard.refreshData o).storiesCount = .num 0) ∧
    (∀ t v, t < 10000 → o.stories = .resolvesAt t v →
      (ReprDashboard.refreshData o).storiesCount =
        ReprDashboard.actualStoriesCount v) := by
  refine ⟨rfl, ?_, ?_, ?_, ?_, ?_, ?_, ?_, ?_, ?_, ?_, ?_, ?_, ?_, ?_, ?_⟩ <;>
    first
      | (intro h
         simp [ReprDashboard.refreshData, raceTimeout, h,
           ReprDashboard.actualStoriesCount, JsValue.truthy])
      | (intro t v ht h
         simp [ReprDashboard.refreshData, raceTimeout, h, ht, Nat.not_lt.mpr ht,
           ReprDashboard.actualStoriesCount, JsValue.truthy])

/-- The concrete refresh-outcome combination used by the C5 witness: the
status query hangs, the tracked-repos query resolves only after the
timeout, and the mode, hook-status and stories queries resolve in time. -/
def refreshWitnessOutcomes : RefreshOutcomes where
  status := .pending
  mode := .resolvesAt 5 (some (.obj [("mode", .str "local")]))
  trackedRepos := .resolvesAt 20000 (.arr [.str "repo"])
  hookStatus := .resolvesAt 3 [⟨"r", "r", true, true⟩]
  stories := .resolvesAt 4 (some (.arr [.str "s1"], .num 7))

/-- Witness for C5 at `refreshWitnessOutcomes`. -/
theorem refresh_timeout_independent_witness :
    (ReprDashboard.refreshData refreshWitnessOutcomes).status = none ∧
    (ReprDashboard.refreshData refreshWitnessOutcomes).mode =
      some (.obj [("mode", .str "local")]) ∧
    (ReprDashboard.refreshData refreshWitnessOutcomes).trackedRepos = .arr [] ∧
    (ReprDashboard.refreshData refreshWitnessOutcomes).hookStatus =
      [⟨"r", "r", true, true⟩] ∧
    (ReprDashboard.refreshData refreshWitnessOutcomes).storiesCount =
      ReprDashboard.actualStoriesCount (some (.arr [.str "s1"], .num 7)) := by
  obtain ⟨h1, h2, h3, h4, h5, h6, h7, h8, h9, h10, h11, h12, h13, h14, h15, h16⟩ :=
    refresh_timeout_independent refreshWitnessOutcomes
  exact ⟨h2 rfl, h7 5 _ (by decide) rfl, h9 20000 _ (by decide) rfl,
    h13 3 _ (by decide) rfl, h16 4 _ (by decide) rfl⟩

theorem take_sliceCount {α : Type} (l : List α) (k : Int) (hk : 0 ≤ k) :
    l.take (sliceCount l.length k) = l.take k.toNat := by
  unfold sliceCount
  rw [if_neg (by omega)]
  rcases le_or_lt k.toNat l.length with h | h
  · rw [min_eq_left h]
  · rw [min_eq_right (le_of_lt h), List.take_length,
      List.take_of_length_le (le_of_lt h)]

theorem storiesShape_arr_limit (l : List JsValue) (k : Int) (hk : k ≠ 0) :
    ReprCLI.storiesShape (some k) (.arr l) =
      .ok (.arr (l.take (sliceCount l.length k)), .num l.length) := by
  unfold ReprCLI.storiesShape
  simp [JsValue.slice, JsValue.lengthRead, JsValue.optLength, hk]
  rfl

theorem storiesShape_arr_none (l : List JsValue) :
    ReprCLI.storiesShape none (.arr l) = .ok (.arr l, .num l.length) := by
  unfold ReprCLI.storiesShape
  simp [JsValue.lengthRead, JsValue.optLength]

theorem storiesShape_arr_zero (l : List JsValue) :
    ReprCLI.storiesShape (some 0) (.arr l) = .ok (.arr l, .num l.length) := by
  unfold ReprCLI.storiesShape
  simp [JsValue.lengthRead, JsValue.optLength]

/-- C10: for a successful `getStories` call whose parsed CLI output is the
array `l` of n stories: a positive limit `k` returns the first
`min(k, n)` elements with `total = n` (the un-truncated length), while an
absent limit or a limit of `0` (falsy, hence treated as no limit, not as an
empty result) returns all of `l` with `total = n`. -/
theorem getStories_limit_spec (parse : String → Option JsValue) (cliPath : String)
    (durationMs : Nat) (repo : Option String) (stdout stderr : String)
    (log : List String) (l : List JsValue)
    (hp : parse stdout = some (.arr l)) :
    (∀ k : Int, 0 < k →
      (ReprCLI.getStories parse cliPath durationMs repo (some k)
          (.completed stdout stderr) log).result =
        some (.arr (l.take k.toNat), .num l.length) ∧
      (l.take k.toNat).length = min k.toNat l.length) ∧
    (ReprCLI.getStories parse cliPath durationMs repo none
        (.completed stdout stderr) log).result = some (.arr l, .num l.length) ∧
    (ReprCLI.getStories parse cliPath durationMs repo (some 0)
        (.completed stdout stderr) log).result = some (.arr l, .num l.length) := by
  refine ⟨?_, ?_, ?_⟩
  · intro k hk
    constructor
    · unfold ReprCLI.getStories
      rw [execCommand_completed_eq]
      dsimp only
      rw [hp]
      dsimp only
      rw [storiesShape_arr_limit l k (by omega), take_sliceCount l k (by omega)]
    · exact List.length_take _ _
  · unfold ReprCLI.getStories
    rw [execCommand_completed_eq]
    dsimp only
    rw [hp]
    dsimp only
    rw [storiesShape_arr_none l]
  · unfold ReprCLI.getStories
    rw [execCommand_completed_eq]
    dsimp only
    rw [hp]
    dsimp only
    rw [storiesShape_arr_zero l]

/-- Witness for C10 with the parsed payload `[1, 2, 3]` and limits 2,
absent, and 0. -/
theorem getStories_limit_spec_witness :
    (ReprCLI.getStories (fun _ => some (.arr [.num 1, .num 2, .num 3])) "repr" 1 none
        (some 2) (.completed "out" "") []).result =
      some (.arr [.num 1, .num 2], .num 3) ∧
    (ReprCLI.getStories (fun _ => some (.arr [.num 1, .num 2, .num 3])) "repr" 1 none
        none (.completed "out" "") []).result =
      some (.arr [.num 1, .num 2, .num 3], .num 3) ∧
    (ReprCLI.getStories (fun _ => some (.arr [.num 1, .num 2, .num 3])) "repr" 1 none
        (some 0) (.completed "out" "") []).result =
      some (.arr [.num 1, .num 2, .num 3], .num 3) := by
  obtain ⟨h1, h2, h3⟩ := getStories_limit_spec
    (fun _ => some (.arr [.num 1, .num 2, .num 3])) "repr" 1 none "out" "" []
    [.num 1, .num 2, .num 3] rfl
  exact ⟨(h1 2 (by decide)).1, h2, h3⟩

theorem storiesArgs_containsJson (repo : Option String) :
    containsJsonFlag (ReprCLI.storiesArgs repo) := by
  have base : containsJsonFlag "stories --json" := ⟨"stories ", "", by decide⟩
  unfold ReprCLI.storiesArgs
  rcases repo with _ | r <;> dsimp only <;> (repeat' split) <;>
    (repeat first | exact base | apply containsJsonFlag_appendRight _ _)

theorem syncArgs_containsJson (repo : Option String) (all background : Bool) :
    containsJsonFlag (ReprCLI.syncArgs repo all background) := by
  have base : containsJsonFlag "sync --json" := ⟨"sync ", "", by decide⟩
  unfold ReprCLI.syncArgs
  rcases repo with _ | r <;> dsimp only <;> (repeat' split) <;>
    (repeat first | exact base | apply containsJsonFlag_appendRight _ _)

theorem getCommitsArgs_containsJson (repo : Option String) (limit days : Option Int)
    (since : Option String) :
    containsJsonFlag (ReprCLI.getCommitsArgs repo limit days since) := by
  have base : containsJsonFlag "commits --json" := ⟨"commits ", "", by decide⟩
  unfold ReprCLI.getCommitsArgs
  rcases repo with _ | r <;> rcases limit with _ | k <;> rcases days with _ | d <;>
    rcases since with _ | s <;> dsimp only <;> (repeat' split) <;>
    (repeat first | exact base | apply containsJsonFlag_appendRight _ _)

theorem generateStoryArgs_containsJson (commitShas : List String)
    (repo template customPrompt : Option String) :
    containsJsonFlag (ReprCLI.generateStoryArgs commitShas repo template customPrompt) := by
  have base : containsJsonFlag ("story " ++ String.intercalate "," commitShas ++ " --json") :=
    containsJsonFlag_appendLeft _ _ ⟨" ", "", by decide⟩
  unfold ReprCLI.generateStoryArgs
  rcases repo with _ | r <;> rcases template with _ | t <;> rcases customPrompt with _ | c <;>
    dsimp only <;> (repeat' split) <;>
    (repeat first | exact base | apply containsJsonFlag_appendRight _ _)

theorem generateArgs_containsJson (localMode : Bool) (template : Option String)
    (days : Option Int) (repo : Option String) (batchSize : Option Int) :
    containsJsonFlag (ReprCLI.generateArgs localMode template days repo batchSize) := by
  have base : containsJsonFlag "generate --json" := ⟨"generate ", "", by decide⟩
  unfold ReprCLI.generateArgs
  rcases template with _ | t <;> rcases days with _ | d <;> rcases repo with _ | r <;>
    rcases batchSize with _ | b <;> dsimp only <;> (repeat' split) <;>
    (repeat first | exact base | apply containsJsonFlag_appendRight _ _)

theorem pushArgs_containsJson (all : Bool) (story : Option String) (dryRun : Bool) :
    containsJsonFlag (ReprCLI.pushArgs all story dryRun) := by
  have base : containsJsonFlag "push --json" := ⟨"push ", "", by decide⟩
  unfold ReprCLI.pushArgs
  rcases story with _ | s <;> dsimp only <;> (repeat' split) <;>
    (repeat first | exact base | apply containsJsonFlag_appendRight _ _)

/-- C6: every `ReprCLI` operation that parses the subprocess's stdout as
JSON (`getStatus`, `getStories`, `getProfiles`, `getConfig`, `sync`,
`whoami`, `getCommits`, `generateStory`, `getMode`, `generate`, `push`,
`pull`, `getTrackedRepos`) builds an argument string containing the flag
`--json`, for every combination of its options. -/
theorem jsonOps_args_contain_json_flag :
    containsJsonFlag ReprCLI.statusArgs ∧
    (∀ repo, containsJsonFlag (ReprCLI.storiesArgs repo)) ∧
    containsJsonFlag ReprCLI.profilesArgs ∧
    containsJsonFlag ReprCLI.configArgs ∧
    (∀ repo all background, containsJsonFlag (ReprCLI.syncArgs repo all background)) ∧
    containsJsonFlag ReprCLI.whoamiArgs ∧
    (∀ repo limit days since,
      containsJsonFlag (ReprCLI.getCommitsArgs repo limit days since)) ∧
    (∀ commitShas repo template customPrompt,
      containsJsonFlag (ReprCLI.generateStoryArgs commitShas repo template customPrompt)) ∧
    containsJsonFlag ReprCLI.modeArgs ∧
    (∀ localMode template days repo batchSize,
      containsJsonFlag (ReprCLI.generateArgs localMode template days repo batchSize)) ∧
    (∀ all story dryRun, containsJsonFlag (ReprCLI.pushArgs all story dryRun)) ∧
    containsJsonFlag ReprCLI.pullArgs ∧
    containsJsonFlag ReprCLI.trackedReposArgs :=
  ⟨⟨"status ", "", by decide⟩, storiesArgs_containsJson,
   ⟨"profiles ", "", by decide⟩, ⟨"config ", "", by decide⟩,
   syncArgs_containsJson, ⟨"whoami ", "", by decide⟩,
   getCommitsArgs_containsJson, generateStoryArgs_containsJson,
   ⟨"mode ", "", by decide⟩, generateArgs_containsJson, pushArgs_containsJson,
   ⟨"pull ", "", by decide⟩, ⟨"repos list ", "", by decide⟩⟩

/-- C7 counterexample: with the `repo` argument given as the empty string
(falsy under the source's `if (repo)` truthiness test), no ` --repo ""` part
is appended, so "appended if and only if the corresponding argument is
given" fails at this input: the claim would require the command line
`story abc123 --json --repo ""`, but the code builds `story abc123 --json`. -/
theorem generateStoryArgs_empty_repo_counterexample :
    ReprCLI.generateStoryArgs ["abc123"] (some "") none none = "story abc123 --json" ∧
    ReprCLI.generateStoryArgs ["abc123"] (some "") none none ≠
      "story abc123 --json --repo \"\"" :=
  ⟨by decide, by decide⟩

/-- C7 (amended): for every non-empty SHA list, `generateStory` builds
exactly `story ` ++ the SHAs joined with commas ++ ` --json`, then — each
appended if and only if the corresponding argument is given and truthy
(i.e. non-empty), in this order — ` --repo "<repo>"`, ` --template
<template>`, ` --custom-prompt "<customPrompt>"`. -/
theorem generateStoryArgs_spec (commitShas : List String) (h : commitShas ≠ [])
    (repo template customPrompt : Option String) :
    ReprCLI.generateStoryArgs commitShas repo template customPrompt =
      "story " ++ String.intercalate "," commitShas ++ " --json"
        ++ (match repo with
            | some r => if r = "" then "" else " --repo \"" ++ r ++ "\""
            | none => "")
        ++ (match template with
            | some t => if t = "" then "" else " --template " ++ t
            | none => "")
        ++ (match customPrompt with
            | some c => if c = "" then "" else " --custom-prompt \"" ++ c ++ "\""
            | none => "") := by
  unfold ReprCLI.generateStoryArgs
  rcases repo with _ | r <;> rcases template with _ | t <;>
    rcases customPrompt with _ | c <;> dsimp only <;> (repeat' split) <;>
    simp_all only [beq_iff_eq, String.append_assoc, String.append_empty,
      String.empty_append] <;> simp_all only [not_true]

/-- Witness for C7 at a non-empty SHA list with all three options given and
non-empty. -/
theorem generateStoryArgs_spec_witness :
    ReprCLI.generateStoryArgs ["a1", "b2"] (some "myrepo") (some "resume")
        (some "be brief") =
      "story " ++ String.intercalate "," ["a1", "b2"] ++ " --json"
        ++ (match (some "myrepo" : Option String) with
            | some r => if r = "" then "" else " --repo \"" ++ r ++ "\""
            | none => "")
        ++ (match (some "resume" : Option String) with
            | some t => if t = "" then "" else " --template " ++ t
            | none => "")
        ++ (match (some "be brief" : Option String) with
            | some c => if c = "" then "" else " --custom-prompt \"" ++ c ++ "\""
            | none => "") :=
  generateStoryArgs_spec ["a1", "b2"] (by decide) (some "myrepo") (some "resume")
    (some "be brief")

/-- The configuration keys of the `repr.llm.*` settings. -/
def llmConfigKeys : List String :=
  ["llm.provider", "llm.endpoint", "llm.model", "llm.apiKey"]

/-- An update is a global (persisted) write of one of the LLM settings. -/
def isGlobalLLMUpdate (u : ConfigUpdate) : Bool :=
  u.global && llmConfigKeys.contains u.key

/-- C3 counterexample: running `repr.configureLLM` and answering
local provider / endpoint / model / "No" API key makes the handler persist
four LLM settings to the editor's global configuration (the `true` target of
`config.update` is `ConfigurationTarget.Global`), so the extension does
write LLM settings to the editor's persistent configuration. -/
theorem configureLLM_persists_llm_settings :
    handleConfigureLLM_configUpdates (some .localProvider)
        (some "http://localhost:11434") (some "llama3") (some "No") none =
      [⟨"llm.provider", .str "local", true⟩,
       ⟨"llm.endpoint", .str "http://localhost:11434", true⟩,
       ⟨"llm.model", .str "llama3", true⟩,
       ⟨"llm.apiKey", .str "", true⟩] ∧
    handleConfigureLLM_configUpdates (some .localProvider)
        (some "http://localhost:11434") (some "llama3") (some "No") none ≠ [] :=
  ⟨by decide, by decide⟩

/-- C3 (amended): the extension persists state of its own in the editor's
global configuration in exactly two places — `handleConfigureLLM` writes the
four `repr.llm.*` settings and `discoverAndPromptForRepos` writes
`repr.autoDetect.promptForNewRepos = false` — and no other command handler
(nor `checkCLIInstallation`) performs any configuration update; all other
persisted state lives inside the external CLI's storage. -/
theorem handlers_config_updates_characterized :
    (∀ provider endpoint model needsApiKey apiKey,
      (handleConfigureLLM_configUpdates provider endpoint model needsApiKey
          apiKey).all isGlobalLLMUpdate = true) ∧
    (∀ promptEnabled isInstalled hasWorkspace trackedRepoCount gitDirIsDirectory action,
      (discoverAndPromptForRepos_configUpdates promptEnabled isInstalled hasWorkspace
          trackedRepoCount gitDirIsDirectory action).all
        (fun u => u == ⟨"autoDetect.promptForNewRepos", .bool false, true⟩) = true) ∧
    handleSync_configUpdates = [] ∧
    handleAddCurrentRepo_configUpdates = [] ∧
    handleCheckHookStatus_configUpdates = [] ∧
    handleInstallHook_configUpdates = [] ∧
    handleRemoveHook_configUpdates = [] ∧
    handleShowStories_configUpdates = [] ∧
    handleLogin_configUpdates = [] ∧
    handleLogout_configUpdates = [] ∧
    handleShareProfile_configUpdates = [] ∧
    handleOpenPublicProfile_configUpdates = [] ∧
    handleAddRepo_configUpdates = [] ∧
    handleRemoveRepo_configUpdates = [] ∧
    handleListRepos_configUpdates = [] ∧
    handleShowCommits_configUpdates = [] ∧
    handleGenerateLocal_configUpdates = [] ∧
    handleExportMarkdown_configUpdates = [] ∧
    openDashboard_configUpdates = [] ∧
    refreshDashboard_configUpdates = [] ∧
    checkCLIInstallation_configUpdates = [] := by
  refine ⟨?_, ?_, rfl, rfl, rfl, rfl, rfl, rfl, rfl, rfl, rfl, rfl, rfl, rfl, rfl,
    rfl, rfl, rfl, rfl, rfl, rfl⟩
  · intro provider endpoint model needsApiKey apiKey
    unfold handleConfigureLLM_configUpdates
    (repeat' split) <;> rfl
  · intro promptEnabled isInstalled hasWorkspace trackedRepoCount gitDirIsDirectory action
    unfold discoverAndPromptForRepos_configUpdates
    (repeat' split) <;> rfl

/-- C2: for every data-returning `ReprCLI` query operation, a failing
subprocess (any `.failed` outcome) or unparseable stdout (a `.completed`
outcome whose stdout `JSON.parse` rejects) is not propagated: the operation
appends an `[ERROR] Failed to ...` line to the output channel and resolves
with `null` (`none`), or with the empty list for `getTrackedRepos`,
`getHookStatus` and `getCommits`; and the operation performs exactly one
subprocess invocation — no retry. -/
theorem cliOps_catch_log_default (parse : String → Option JsValue)
    (cliPath : String) (durationMs : Nat) (log : List String) (m so se : String)
    (repo template customPrompt story since : Option String)
    (all background localMode dryRun : Bool)
    (limit days batchSize : Option Int) (commitShas : List String) (format : String)
    (hp : parse so = none) :
    (ReprCLI.getStatus parse cliPath durationMs (.failed m so se) log =
      ⟨appendError (failedLog cliPath ReprCLI.statusArgs durationMs m so se log)
        ("Failed to get status: " ++ errToString (.execError m so se)), none, 1⟩) ∧
    (ReprCLI.getStatus parse cliPath durationMs (.completed so se) log =
      ⟨appendError (completedLog cliPath ReprCLI.statusArgs durationMs so se log)
        ("Failed to get status: " ++ errToString .jsonParseError), none, 1⟩) ∧
    (ReprCLI.getStories parse cliPath durationMs repo limit (.failed m so se) log =
      ⟨appendError (failedLog cliPath (ReprCLI.storiesArgs repo) durationMs m so se log)
        ("Failed to get stories: " ++ errToString (.execError m so se)), none, 1⟩) ∧
    (ReprCLI.getStories parse cliPath durationMs repo limit (.completed so se) log =
      ⟨appendError (completedLog cliPath (ReprCLI.storiesArgs repo) durationMs so se log)
        ("Failed to get stories: " ++ errToString .jsonParseError), none, 1⟩) ∧
    (ReprCLI.getProfiles parse cliPath durationMs (.failed m so se) log =
      ⟨appendError (failedLog cliPath ReprCLI.profilesArgs durationMs m so se log)
        ("Failed to get profiles: " ++ errToString (.execError m so se)), none, 1⟩) ∧
    (ReprCLI.getProfiles parse cliPath durationMs (.completed so se) log =
      ⟨appendError (completedLog cliPath ReprCLI.profilesArgs durationMs so se log)
        ("Failed to get profiles: " ++ errToString .jsonParseError), none, 1⟩) ∧
    (ReprCLI.getConfig parse cliPath durationMs (.failed m so se) log =
      ⟨appendError (failedLog cliPath ReprCLI.configArgs durationMs m so se log)
        ("Failed to get config: " ++ errToString (.execError m so se)), none, 1⟩) ∧
    (ReprCLI.getConfig parse cliPath durationMs (.completed so se) log =
      ⟨appendError (completedLog cliPath ReprCLI.configArgs durationMs so se log)
        ("Failed to get config: " ++ errToString .jsonParseError), none, 1⟩) ∧
    (ReprCLI.sync parse cliPath durationMs repo all background (.failed m so se) log =
      ⟨appendError (failedLog cliPath (ReprCLI.syncArgs repo all background)
          durationMs m so se log)
        ("Failed to sync: " ++ errToString (.execError m so se)), none, 1⟩) ∧
    (ReprCLI.sync parse cliPath durationMs repo all background (.completed so se) log =
      ⟨appendError (completedLog cliPath (ReprCLI.syncArgs repo all background)
          durationMs so se log)
        ("Failed to sync: " ++ errToString .jsonParseError), none, 1⟩) ∧
    (ReprCLI.getTrackedRepos parse cliPath durationMs (.failed m so se) log =
      ⟨appendError (failedLog cliPath ReprCLI.trackedReposArgs durationMs m so se log)
        ("Failed to get tracked repos: " ++ errToString (.execError m so se)), .arr [], 1⟩) ∧
    (ReprCLI.getTrackedRepos parse cliPath durationMs (.completed so se) log =
      ⟨appendError (completedLog cliPath ReprCLI.trackedReposArgs durationMs so se log)
        ("Failed to get tracked repos: " ++ errToString .jsonParseError), .arr [], 1⟩) ∧
    (ReprCLI.getHookStatus parse cliPath durationMs (.failed m so se) log =
      ⟨appendError (failedLog cliPath ReprCLI.hooksStatusArgs durationMs m so se log)
        ("Failed to get hook status: " ++ errToString (.execError m so se)), [], 1⟩) ∧
    (ReprCLI.whoami parse cliPath durationMs (.failed m so se) log =
      ⟨appendError (failedLog cliPath ReprCLI.whoamiArgs durationMs m so se log)
        ("Failed to get user info: " ++ errToString (.execError m so se)), none, 1⟩) ∧
    (ReprCLI.whoami parse cliPath durationMs (.completed so se) log =
      ⟨appendError (completedLog cliPath ReprCLI.whoamiArgs durationMs so se log)
        ("Failed to get user info: " ++ errToString .jsonParseError), none, 1⟩) ∧
    (ReprCLI.getCommits parse cliPath durationMs repo limit days since
        (.failed m so se) log =
      ⟨appendError (failedLog cliPath (ReprCLI.getCommitsArgs repo limit days since)
          durationMs m so se log)
        ("Failed to get commits: " ++ errToString (.execError m so se)), .arr [], 1⟩) ∧
    (ReprCLI.getCommits parse cliPath durationMs repo limit days since
        (.completed so se) log =
      ⟨appendError (completedLog cliPath (ReprCLI.getCommitsArgs repo limit days since)
          durationMs so se log)
        ("Failed to get commits: " ++ errToString .jsonParseError), .arr [], 1⟩) ∧
    (ReprCLI.generateStory parse cliPath durationMs commitShas repo template customPrompt
        (.failed m so se) log =
      ⟨appendError (failedLog cliPath
          (ReprCLI.generateStoryArgs commitShas repo template customPrompt)
          durationMs m so se log)
        ("Failed to generate story: " ++ errToString (.execError m so se)), none, 1⟩) ∧
    (ReprCLI.generateStory parse cliPath durationMs commitShas repo template customPrompt
        (.completed so se) log =
      ⟨appendError (completedLog cliPath
          (ReprCLI.generateStoryArgs commitShas repo template customPrompt)
          durationMs so se log)
        ("Failed to generate story: " ++ errToString .jsonParseError), none, 1⟩) ∧
    (ReprCLI.getMode parse cliPath durationMs (.failed m so se) log =
      ⟨appendError (failedLog cliPath ReprCLI.modeArgs durationMs m so se log)
        ("Failed to get mode: " ++ errToString (.execError m so se)), none, 1⟩) ∧
    (ReprCLI.getMode parse cliPath durationMs (.completed so se) log =
      ⟨appendError (completedLog cliPath ReprCLI.modeArgs durationMs so se log)
        ("Failed to get mode: " ++ errToString .jsonParseError), none, 1⟩) ∧
    (ReprCLI.generate parse cliPath durationMs localMode template days repo batchSize
        (.failed m so se) log =
      ⟨appendError (failedLog cliPath
          (ReprCLI.generateArgs localMode template days repo batchSize)
          durationMs m so se log)
        ("Failed to generate stories: " ++ errToString (.execError m so se)), none, 1⟩) ∧
    (ReprCLI.generate parse cliPath durationMs localMode template days repo batchSize
        (.completed so se) log =
      ⟨appendError (completedLog cliPath
          (ReprCLI.generateArgs localMode template days repo batchSize)
          durationMs so se log)
        ("Failed to generate stories: " ++ errToString .jsonParseError), none, 1⟩) ∧
    (ReprCLI.exportProfile parse cliPath durationMs format since (.failed m so se) log =
      ⟨appendError (failedLog cliPath (ReprCLI.exportProfileArgs format since)
          durationMs m so se log)
        ("Failed to export profile: " ++ errToString (.execError m so se)), none, 1⟩) ∧
    (ReprCLI.push parse cliPath durationMs all story dryRun (.failed m so se) log =
      ⟨appendError (failedLog cliPath (ReprCLI.pushArgs all story dryRun)
          durationMs m so se log)
        ("Failed to push: " ++ errToString (.execError m so se)), none, 1⟩) ∧
    (ReprCLI.push parse cliPath durationMs all story dryRun (.completed so se) log =
      ⟨appendError (completedLog cliPath (ReprCLI.pushArgs all story dryRun)
          durationMs so se log)
        ("Failed to push: " ++ errToString .jsonParseError), none, 1⟩) ∧
    (ReprCLI.pull parse cliPath durationMs (.failed m so se) log =
      ⟨appendError (failedLog cliPath ReprCLI.pullArgs durationMs m so se log)
        ("Failed to pull: " ++ errToString (.execError m so se)), none, 1⟩) ∧
    (ReprCLI.pull parse cliPath durationMs (.completed so se) log =
      ⟨appendError (completedLog cliPath ReprCLI.pullArgs durationMs so se log)
        ("Failed to pull: " ++ errToString .jsonParseError), none, 1⟩) := by
  refine ⟨?_, ?_, ?_, ?_, ?_, ?_, ?_, ?_, ?_, ?_, ?_, ?_, ?_, ?_, ?_, ?_, ?_, ?_, ?_,
    ?_, ?_, ?_, ?_, ?_, ?_, ?_, ?_, ?_⟩ <;>
    simp only [ReprCLI.getStatus, ReprCLI.getStories, ReprCLI.getProfiles,
      ReprCLI.getConfig, ReprCLI.sync, ReprCLI.getTrackedRepos, ReprCLI.getHookStatus,
      ReprCLI.whoami, ReprCLI.getCommits, ReprCLI.generateStory, ReprCLI.getMode,
      ReprCLI.generate, ReprCLI.exportProfile, ReprCLI.push, ReprCLI.pull,
      ReprCLI.runJsonQuery, ReprCLI.runJsonQueryArr,
      execCommand_failed_eq, execCommand_completed_eq, hp]

/-- Witness for C2: a concrete failing subprocess and a concrete
unparseable stdout, under a `JSON.parse` model that rejects everything. -/
theorem cliOps_catch_log_default_witness :
    ReprCLI.getStatus (fun _ => none) "repr" 7 (.failed "boom" "" "") [] =
      ⟨appendError (failedLog "repr" ReprCLI.statusArgs 7 "boom" "" "" [])
        ("Failed to get status: " ++ errToString (.execError "boom" "" "")), none, 1⟩ ∧
    ReprCLI.getStatus (fun _ => none) "repr" 7 (.completed "" "") [] =
      ⟨appendError (completedLog "repr" ReprCLI.statusArgs 7 "" "" [])
        ("Failed to get status: " ++ errToString .jsonParseError), none, 1⟩ ∧
    ReprCLI.getTrackedRepos (fun _ => none) "repr" 7 (.failed "boom" "" "") [] =
      ⟨appendError (failedLog "repr" ReprCLI.trackedReposArgs 7 "boom" "" "" [])
        ("Failed to get tracked repos: " ++ errToString (.execError "boom" "" "")),
        .arr [], 1⟩ := by
  obtain ⟨h1, h2, _, _, _, _, _, _, _, _, h11, _⟩ :=
    cliOps_catch_log_default (fun _ => none) "repr" 7 [] "boom" "" ""
      none none none none none false false false false none none none [] "md" rfl
  exact ⟨h1, h2, h11⟩
